import Mathlib

/-!
Verification development for the federated-data-fusion backend:
simulation and correlation engine (generators), admin controller and
stream reader, shallowly embedded over exact rationals and reals.
Random draws made by the code are passed in explicitly as oracle inputs.
-/

namespace FDF

variable {α : Type} [LinearOrderedField α]

/-- Mirror of generators.clamp: max(lo, min(hi, v)). -/
def clamp (v lo hi : α) : α := max lo (min hi v)

/-- Keep the last n elements of a list: redis LTRIM key (-n) (-1). -/
def keepLast (n : ℕ) (l : List α') : List α' := l.drop (l.length - n)

/-- Mirror of generators._risk_to_severity: lower-inclusive threshold table. -/
def _risk_to_severity (risk : α) : String :=
  if (4/5 : α) ≤ risk then "critical"
  else if (3/5 : α) ≤ risk then "high"
  else if (7/20 : α) ≤ risk then "medium"
  else "low"

/-- One waypoint hop of generators.random_route: add the drawn delta to the
previous point, then clamp into the operating region. -/
def routeHop (p d : α × α) : α × α :=
  (clamp (p.1 + d.1) 35 60, clamp (p.2 + d.2) (-10) 30)

/-- The loop body of generators.random_route: k further waypoints, the i-th
using the i-th drawn delta pair. -/
def routeHops (cur : α × α) (draws : ℕ → α × α) : ℕ → List (α × α)
  | 0 => []
  | k + 1 =>
    let nxt := routeHop cur (draws 0)
    nxt :: routeHops nxt (fun i => draws (i + 1)) k

/-- Mirror of generators.random_route: the starting point followed by
max(1, n-1) hops.  The uniform(-1.2,1.2) and uniform(-1.8,1.8) draws of the
source are supplied through the draws oracle. -/
def random_route (lat lon : α) (n : ℕ) (draws : ℕ → α × α) : List (α × α) :=
  (lat, lon) :: routeHops (lat, lon) draws (max 1 (n - 1))

/-- Euclidean length, in degrees, of the segment between two points: the
dist value computed inside generators.move_towards. -/
noncomputable def dist_deg (a_lat a_lon b_lat b_lon : ℝ) : ℝ :=
  Real.sqrt ((b_lat - a_lat) * (b_lat - a_lat) + (b_lon - a_lon) * (b_lon - a_lon))

/-- Mirror of generators.move_towards: step from a towards b by step_deg and
report arrival when the remaining distance is within one step. -/
noncomputable def move_towards (a_lat a_lon b_lat b_lon step_deg : ℝ) : ℝ × ℝ × Bool :=
  if dist_deg a_lat a_lon b_lat b_lon ≤ step_deg then (b_lat, b_lon, true)
  else (a_lat + (b_lat - a_lat) / dist_deg a_lat a_lon b_lat b_lon * step_deg,
        a_lon + (b_lon - a_lon) / dist_deg a_lat a_lon b_lat b_lon * step_deg,
        false)


/-- Asset record as stored under asset:id, including the simulation-only
fields route, route_idx and speed_kmh added by bootstrap_assets. -/
structure SimAsset (α : Type) where
  name : String
  asset_type : String
  lat : α
  lon : α
  status : String
  last_update : ℕ
  owner_team : String
  route : List (α × α)
  route_idx : ℕ
  speed_kmh : α
deriving DecidableEq

/-- Event record as stored under event:id.  The two meta entries written by
generate_event are modelled as explicit optional fields. -/
structure EventData (α : Type) where
  event_id : String
  created_at : ℕ
  lat : α
  lon : α
  type : String
  severity : String
  source : String
  confidence : α
  meta_asset_id : Option String
  meta_owner_team : Option String
deriving DecidableEq

/-- Alert record as stored under alert:id. -/
structure AlertData where
  alert_id : String
  created_at : ℕ
  priority : String
  message : String
  related_event_id : Option String
  related_asset_id : Option String
  fingerprint : String
  expires_at : ℕ
deriving DecidableEq

/-- Payload of one updates:stream entry.  The envelope type string of the
source is recovered by utypeOf, matching the literal used at each push site. -/
inductive UpdateData (α : Type) where
  | bootstrapD (assets : ℕ)
  | assetD (a : SimAsset α)
  | eventD (e : EventData α)
  | alertD (al : AlertData)
  | adminD (kind : String) (actor : String) (ts : ℕ) (cooldown : ℕ)
deriving DecidableEq

/-- The type string of an update envelope, as written at its push site. -/
def utypeOf : UpdateData α' → String
  | .bootstrapD _ => "bootstrap"
  | .assetD _ => "asset_updated"
  | .eventD _ => "event_created"
  | .alertD _ => "alert_raised"
  | .adminD _ _ _ _ => "admin_notice"

/-- Mirror of generators._push_update: append then trim to the last 500. -/
def _push_update (log : List (UpdateData α')) (e : UpdateData α') : List (UpdateData α') :=
  keepLast 500 (log ++ [e])

/-- The redis state touched by the generators: the three id index lists, the
per-id JSON blobs, the dedup markers (value = absolute expiry time) and the
updates stream. -/
structure Store (α : Type) where
  assets : List String
  assetOf : String → Option (SimAsset α)
  events : List String
  eventOf : String → Option (EventData α)
  alerts : List String
  alertOf : String → Option AlertData
  dedup : String → Option ℕ
  updates : List (UpdateData α)

/-- Mirror of generators._asset_risk: base 0.20, +0.30 when degraded,
else +0.55 when offline, clamped to the unit interval. -/
def _asset_risk (a : SimAsset α) : α :=
  clamp ((1/5 : α) +
    (if a.status = "degraded" then 3/10
     else if a.status = "offline" then 11/20
     else 0)) 0 1

/-- Mirror of generators._event_to_priority: critical maps to p1, high to p2,
any other severity to an explicit no-alert result. -/
def _event_to_priority (evt : EventData α') : Option String :=
  if evt.severity = "critical" then some "p1"
  else if evt.severity = "high" then some "p2"
  else none

/-- The message template table of generate_alert, keyed by event type. -/
def alertMessage (et : String) : String :=
  if et = "comms" then "Communications anomaly detected"
  else if et = "movement" then "Unusual movement pattern near asset"
  else if et = "incident" then "Incident reported near monitored corridor"
  else if et = "weather" then "Weather risk impacting operational area"
  else "Correlation rule triggered"

/-- How a Python f-string renders an optional value: None prints as None. -/
def optStr : Option String → String
  | some s => s
  | none => "None"

/-- The dedup fingerprint built by generate_alert from priority, event id,
related asset id and message. -/
def fingerprintOf (priority : String) (evt : EventData α') : String :=
  priority ++ ":" ++ evt.event_id ++ ":" ++ optStr evt.meta_asset_id ++ ":" ++
    alertMessage evt.type

/-- Whether a redis key written with SETEX still exists at the given time:
the marker value holds its absolute expiry. -/
def dedupLive (dedup : String → Option ℕ) (key : String) (now : ℕ) : Bool :=
  match dedup key with
  | some e => decide (now < e)
  | none => false

/-- The alert record generate_alert builds: message from the template table
suffixed with the severity, a fixed 5-minute logical expiry, and the dedup
fingerprint kept on the record. -/
def alertRecordOf (priority : String) (evt : EventData α') (now : ℕ) (newId : String) :
    AlertData :=
  { alert_id := newId
    created_at := now
    priority := priority
    message := alertMessage evt.type ++ " (sev=" ++ evt.severity ++ ")"
    related_event_id := some evt.event_id
    related_asset_id := evt.meta_asset_id
    fingerprint := fingerprintOf priority evt
    expires_at := now + 300 }

/-- Mirror of generators.generate_alert.  The fresh alert id that the Alert
model would draw is passed in as newId; time is an explicit parameter.  The
python hash() applied to the fingerprint is modelled as the fingerprint
itself inside the dedup key. -/
def generate_alert (st : Store α) (now : ℕ) (newId : String) : Store α :=
  match st.events.getLast? with
  | none => st
  | some event_id =>
    match st.eventOf event_id with
    | none => st
    | some evt =>
      match _event_to_priority evt with
      | none => st
      | some priority =>
        let dedup_key := "dedup:alert:" ++ fingerprintOf priority evt
        if dedupLive st.dedup dedup_key now then st
        else
          let alr := alertRecordOf priority evt now newId
          { st with
            dedup := fun k => if k = dedup_key then some (now + 60) else st.dedup k
            alertOf := fun k => if k = newId then some alr else st.alertOf k
            alerts := keepLast 300 (st.alerts ++ [newId])
            updates := _push_update st.updates (.alertD alr) }

/-- Candidate event types per asset type in generate_event; the weighted
random.choices call selects one of these. -/
def eventTypeChoices (a_type : String) : List String :=
  if a_type = "relay" then ["comms", "anomaly", "movement"]
  else if a_type = "vehicle" then ["movement", "incident", "anomaly"]
  else if a_type = "drone" then ["movement", "anomaly", "weather"]
  else ["incident", "movement", "anomaly", "weather"]

/-- The random draws consumed by one generate_event call: which asset index
is picked, which candidate event types are chosen, the two position jitter
draws from uniform(-0.25,0.25), the confidence draw and the fresh event id. -/
structure EventRandom (α : Type) where
  pickIdx : ℕ
  etypeIdx : ℕ
  offlineIdx : ℕ
  dlat : α
  dlon : α
  confidence : α
  newId : String

/-- The event record generate_event builds for a picked asset: risk and
severity derived from the asset status (offline biases the type table and
adds 0.10 to the risk before the severity mapping), position equal to the
asset position plus the jitter draws with no clamping. -/
def eventRecordOf (asset : SimAsset α) (asset_id : String) (now : ℕ)
    (rnd : EventRandom α) : EventData α :=
  let risk0 := _asset_risk asset
  let choices := eventTypeChoices asset.asset_type
  let etype0 := choices.getD (rnd.etypeIdx % choices.length) "anomaly"
  let offline := asset.status = "offline"
  let etype :=
    if offline then ["comms", "anomaly", "incident"].getD (rnd.offlineIdx % 3) "comms"
    else etype0
  let risk := if offline then clamp (risk0 + 1/10) 0 1 else risk0
  { event_id := rnd.newId
    created_at := now
    lat := asset.lat + rnd.dlat
    lon := asset.lon + rnd.dlon
    type := etype
    severity := _risk_to_severity risk
    source := "synthetic"
    confidence := rnd.confidence
    meta_asset_id := some asset_id
    meta_owner_team := some asset.owner_team }

/-- Mirror of generators.generate_event: pick an asset, build the event near
it, then persist and index the event and push the notification. -/
def generate_event (st : Store α) (now : ℕ) (rnd : EventRandom α) : Store α :=
  if st.assets.length = 0 then st
  else
    let asset_id := st.assets.getD (rnd.pickIdx % st.assets.length) ""
    match st.assetOf asset_id with
    | none => st
    | some asset =>
      let evt := eventRecordOf asset asset_id now rnd
      { st with
        eventOf := fun k => if k = rnd.newId then some evt else st.eventOf k
        events := keepLast 300 (st.events ++ [rnd.newId])
        updates := _push_update st.updates (.eventD evt) }

/-- The random draws consumed for the i-th asset of bootstrap_assets: the
fresh id, the two uniform position draws, the type and team choices, the
randint(3,6) route length draw, the waypoint delta draws and the speed. -/
structure BootRandom (α : Type) where
  id : ℕ → String
  lat : ℕ → α
  lon : ℕ → α
  typeIdx : ℕ → ℕ
  teamIdx : ℕ → ℕ
  routeLen : ℕ → ℕ
  routeDraws : ℕ → ℕ → α × α
  speed : ℕ → α
  now : ℕ

/-- The asset type table random.choice picks from in bootstrap_assets. -/
def assetTypeChoices : List String := ["sensor", "vehicle", "relay", "drone"]

/-- The owner team table random.choice picks from in bootstrap_assets. -/
def ownerTeamChoices : List String := ["blue", "green", "white"]

/-- Mirror of generators.bootstrap_assets: a guarded no-op when assets:list
is non-empty, otherwise create n assets with fresh routes and push one
bootstrap notification.  random.uniform(35,60) and random.uniform(-10,30)
become the lat and lon oracles, random.randint(3,6) becomes 3 + x mod 4. -/
def bootstrap_assets (st : Store α) (n : ℕ) (b : BootRandom α) : Store α :=
  if 0 < st.assets.length then st
  else
    let st1 := (List.range n).foldl (fun s i =>
      let lat := b.lat i
      let lon := b.lon i
      let a : SimAsset α := {
        name := "Asset-" ++ toString i
        asset_type := assetTypeChoices.getD (b.typeIdx i % 4) "sensor"
        lat := lat
        lon := lon
        status := "active"
        last_update := b.now
        owner_team := ownerTeamChoices.getD (b.teamIdx i % 3) "blue"
        route := random_route lat lon (3 + b.routeLen i % 4) (b.routeDraws i)
        route_idx := 0
        speed_kmh := b.speed i }
      { s with
        assetOf := fun k => if k = b.id i then some a else s.assetOf k
        assets := s.assets ++ [b.id i] }) st
    { st1 with updates := _push_update st1.updates (.bootstrapD n) }

/-- The random draws consumed when update_assets touches one asset: the route
regeneration draws, the two GPS jitter draws from uniform(-0.004,0.004) and
the two status rolls. -/
structure TickRandom (α : Type) where
  routeLen : ℕ
  routeDraws : ℕ → α × α
  jlat : α
  jlon : α
  roll : α
  recov : α

/-- One update_assets iteration on a single asset blob: advance along the
route (regenerating it from the current position when exhausted), add the
jitter, clamp into the operating region, then roll the status transition. -/
noncomputable def updateAsset (a : SimAsset ℝ) (rnd : TickRandom ℝ) (now : ℕ) : SimAsset ℝ :=
  let route :=
    if a.route.length ≤ a.route_idx then
      random_route a.lat a.lon (3 + rnd.routeLen % 4) rnd.routeDraws
    else a.route
  let idx := if a.route.length ≤ a.route_idx then 0 else a.route_idx
  let target := route.getD idx (a.lat, a.lon)
  let step : ℝ := if a.asset_type = "drone" ∨ a.asset_type = "vehicle" then 3/100 else 2/100
  let m := move_towards a.lat a.lon target.1 target.2 step
  let nstatus :=
    if rnd.roll < 3/200 then "degraded"
    else if rnd.roll < 1/50 then "offline"
    else if (a.status = "degraded" ∨ a.status = "offline") ∧ rnd.recov < 3/100 then "active"
    else a.status
  { a with
    lat := clamp (m.1 + rnd.jlat) 35 60
    lon := clamp (m.2.1 + rnd.jlon) (-10) 30
    route := route
    route_idx := if m.2.2 then idx + 1 else idx
    status := nstatus
    last_update := now }

/-- The inputs of one update_assets call: which asset ids the random sample
selected, the per-asset draws, and the tick time. -/
structure TickInput where
  sel : String → Bool
  rnd : String → TickRandom ℝ
  now : ℕ

/-- Mirror of generators.update_assets: for every sampled id whose blob is
present, apply the per-asset update, persist it and push an asset_updated
notification; a missing blob is skipped and an empty index is a no-op. -/
noncomputable def update_assets (st : Store ℝ) (t : TickInput) : Store ℝ :=
  if st.assets = [] then st
  else
    st.assets.foldl (fun s asset_id =>
      if t.sel asset_id then
        match s.assetOf asset_id with
        | none => s
        | some a =>
          let a2 := updateAsset a (t.rnd asset_id) t.now
          { s with
            assetOf := fun k => if k = asset_id then some a2 else s.assetOf k
            updates := _push_update s.updates (.assetD a2) }
      else s) st

/-- The scenario names admitted by the ScenarioName Literal of admin.py. -/
inductive ScenarioName where
  | normal
  | stress
  | incident
deriving DecidableEq

/-- The string form of a scenario name. -/
def scenarioStr : ScenarioName → String
  | .normal => "normal"
  | .stress => "stress"
  | .incident => "incident"

/-- Mirror of admin.SCENARIO_PRESETS: the event, asset and alert interval
seconds of each preset. -/
def SCENARIO_PRESETS : ScenarioName → ℕ × ℕ × ℕ
  | .normal => (6, 2, 3)
  | .stress => (2, 1, 1)
  | .incident => (3, 1, 1)

/-- settings.admin_lock_sec of config.py. -/
def admin_lock_sec : ℕ := 10

/-- settings.admin_cooldown_sec of config.py. -/
def admin_cooldown_sec : ℕ := 300

/-- The admin keys of the store: scenario name, the three rate overrides,
the cooldown deadline (0 when the key is absent, as admin.py parses it) and
the self-expiring lock key holding its absolute expiry time. -/
structure AdminState (α : Type) where
  scenario : Option String
  rateEvent : Option ℕ
  rateAsset : Option ℕ
  rateAlert : Option ℕ
  cooldownUntil : ℕ
  lock : Option ℕ
  updates : List (UpdateData α)
deriving DecidableEq

/-- Mirror of admin._acquire_lock: SET NX EX semantics on the lock key.  An
expired key counts as absent; acquisition writes a fresh expiry.  Returns
whether the lock was taken together with the new lock key state. -/
def _acquire_lock (lock : Option ℕ) (now : ℕ) : Bool × Option ℕ :=
  match lock with
  | some e => if now < e then (false, some e) else (true, some (now + admin_lock_sec))
  | none => (true, some (now + admin_lock_sec))

/-- Mirror of admin._cooldown_remaining: max(0, until - now). -/
def _cooldown_remaining (cooldownUntil now : ℕ) : ℕ := cooldownUntil - now

/-- Outcome of an admin operation: success, the 409 lock-busy rejection, or
the 429 cooldown rejection carrying the remaining seconds. -/
inductive AdminResult where
  | ok (scenario : String) (rates : ℕ × ℕ × ℕ) (cooldown : ℕ)
  | busy
  | cooldownActive (remaining : ℕ)
deriving DecidableEq

/-- Mirror of admin.set_scenario: take the lock (else busy), check the
cooldown (else the 429 outcome, leaving the lock to expire naturally), then
apply the preset rates, persist the scenario, arm the cooldown and push an
admin_notice.  Pydantic already guarantees the name is a known preset. -/
def set_scenario (st : AdminState α) (now : ℕ) (name : ScenarioName) (actor : String) :
    AdminResult × AdminState α :=
  let acq := _acquire_lock st.lock now
  if acq.1 = false then (.busy, st)
  else
    let st1 := { st with lock := acq.2 }
    let rem := _cooldown_remaining st1.cooldownUntil now
    if 0 < rem then (.cooldownActive rem, st1)
    else
      let preset := SCENARIO_PRESETS name
      let st2 := { st1 with
        scenario := some (scenarioStr name)
        rateEvent := some preset.1
        rateAsset := some preset.2.1
        rateAlert := some preset.2.2
        cooldownUntil := now + admin_cooldown_sec
        updates := _push_update st1.updates
          (.adminD "scenario_changed" actor now admin_cooldown_sec) }
      (.ok (scenarioStr name) preset admin_cooldown_sec, st2)

/-- Per-connection stream reader state: the cursor into updates:stream and
the frames pushed to the client so far, each keyed by the envelope type. -/
structure StreamReader (α : Type) where
  cursor : ℕ
  emitted : List (String × UpdateData α)

/-- The SSE frame for one update entry: event type keyed with its data. -/
def frameOf (d : UpdateData α') : String × UpdateData α' := (utypeOf d, d)

/-- On connect the reader captures the current log length as its cursor and
replays no history (stream.py). -/
def connectReader (log : List (UpdateData α')) : StreamReader α' :=
  { cursor := log.length, emitted := [] }

/-- One observable step of the system around a connected reader: either some
mutator appends an update (with the trim of _push_update), or the reader
polls the log as in the stream.py loop body. -/
inductive StreamStep (α : Type) where
  | append (d : UpdateData α)
  | poll

/-- Mirror of one iteration of the stream.py poll loop, or of one producer
append in between: on poll, when the log has grown past the cursor, emit the
delta range in order and advance the cursor to the new length. -/
def runStep (s : List (UpdateData α') × StreamReader α') (step : StreamStep α') :
    List (UpdateData α') × StreamReader α' :=
  match step with
  | .append d => (_push_update s.1 d, s.2)
  | .poll =>
    if s.2.cursor < s.1.length then
      (s.1, { cursor := s.1.length
              emitted := s.2.emitted ++ (s.1.drop s.2.cursor).map frameOf })
    else s

/-- A reader connected over a log, run through a sequence of steps. -/
def runSteps (log : List (UpdateData α')) (steps : List (StreamStep α')) :
    List (UpdateData α') × StreamReader α' :=
  steps.foldl runStep (log, connectReader log)

/-- The entries appended during a step sequence, in append order. -/
def appendsOf (steps : List (StreamStep α')) : List (UpdateData α') :=
  steps.filterMap (fun s => match s with | .append d => some d | .poll => none)

/-- Whether an asset position lies in the bounded operating region. -/
def inRegion (a : SimAsset ℝ) : Prop :=
  35 ≤ a.lat ∧ a.lat ≤ 60 ∧ -10 ≤ a.lon ∧ a.lon ≤ 30

/-- Every asset blob of the store lies in the operating region. -/
def assetsInRegion (st : Store ℝ) : Prop :=
  ∀ aid a, st.assetOf aid = some a → inRegion a

/-! Concrete sample data used to instantiate the theorems below. -/

/-- A sample event of severity medium. -/
def evtW4 : EventData ℚ :=
  { event_id := "evt_1", created_at := 0, lat := 40, lon := 0, type := "comms"
    severity := "medium", source := "synthetic", confidence := 3/4
    meta_asset_id := some "ast_1", meta_owner_team := some "blue" }

/-- A sample store whose latest event is the medium one. -/
def stW4 : Store ℚ :=
  { assets := [], assetOf := fun _ => none
    events := ["evt_1"], eventOf := fun k => if k = "evt_1" then some evtW4 else none
    alerts := [], alertOf := fun _ => none
    dedup := fun _ => none, updates := [] }

/-- A sample event of severity critical. -/
def evtW5 : EventData ℚ :=
  { event_id := "evt_2", created_at := 0, lat := 40, lon := 0, type := "movement"
    severity := "critical", source := "synthetic", confidence := 3/4
    meta_asset_id := some "ast_1", meta_owner_team := some "blue" }

/-- A sample store whose latest event is the critical one. -/
def stW5 : Store ℚ :=
  { assets := [], assetOf := fun _ => none
    events := ["evt_2"], eventOf := fun k => if k = "evt_2" then some evtW5 else none
    alerts := [], alertOf := fun _ => none
    dedup := fun _ => none, updates := [] }

/-- A sample asset sitting on the upper latitude boundary of the region. -/
def assetW9 : SimAsset ℚ :=
  { name := "Asset-009", asset_type := "sensor", lat := 60, lon := 0
    status := "active", last_update := 0, owner_team := "blue"
    route := [], route_idx := 0, speed_kmh := 50 }

/-- A sample store holding only the boundary asset. -/
def stW9 : Store ℚ :=
  { assets := ["ast_9"], assetOf := fun k => if k = "ast_9" then some assetW9 else none
    events := [], eventOf := fun _ => none
    alerts := [], alertOf := fun _ => none
    dedup := fun _ => none, updates := [] }

/-- Event draws putting the full positive latitude jitter on the asset. -/
def rndW9 : EventRandom ℚ :=
  { pickIdx := 0, etypeIdx := 0, offlineIdx := 0
    dlat := 1/4, dlon := 0, confidence := 3/4, newId := "evt_9" }

/-- The event generate_event produces from stW9 and rndW9 at time 0. -/
def evtW9 : EventData ℚ :=
  { event_id := "evt_9", created_at := 0, lat := 60 + 1/4, lon := 0 + 0
    type := "incident", severity := "low", source := "synthetic", confidence := 3/4
    meta_asset_id := some "ast_9", meta_owner_team := some "blue" }

/-- A sample store that already holds one asset id. -/
def stW10 : Store ℚ :=
  { assets := ["ast_1"], assetOf := fun _ => none
    events := [], eventOf := fun _ => none
    alerts := [], alertOf := fun _ => none
    dedup := fun _ => none, updates := [] }

/-- Bootstrap draws over the rationals, all constant. -/
def bW : BootRandom ℚ :=
  { id := fun i => "ast_" ++ toString i, lat := fun _ => 40, lon := fun _ => 0
    typeIdx := fun _ => 0, teamIdx := fun _ => 0, routeLen := fun _ => 0
    routeDraws := fun _ _ => (0, 0), speed := fun _ => 60, now := 0 }

/-- An empty real-valued store. -/
noncomputable def stR0 : Store ℝ :=
  { assets := [], assetOf := fun _ => none
    events := [], eventOf := fun _ => none
    alerts := [], alertOf := fun _ => none
    dedup := fun _ => none, updates := [] }

/-- Bootstrap draws over the reals, all constant and inside the region. -/
noncomputable def bR : BootRandom ℝ :=
  { id := fun i => "ast_" ++ toString i, lat := fun _ => 40, lon := fun _ => 0
    typeIdx := fun _ => 0, teamIdx := fun _ => 0, routeLen := fun _ => 0
    routeDraws := fun _ _ => (0, 0), speed := fun _ => 60, now := 0 }

/-- A fresh admin state: no scenario, no overrides, no cooldown, no lock. -/
def stA0 : AdminState ℚ :=
  { scenario := none, rateEvent := none, rateAsset := none, rateAlert := none
    cooldownUntil := 0, lock := none, updates := [] }

/-- Constant waypoint delta draws for route instantiations. -/
def wDraws : ℕ → ℚ × ℚ := fun _ => (1, 1)

/-- An update log at the 500-entry trim capacity. -/
def fullLog : List (UpdateData ℚ) := List.replicate 500 (UpdateData.bootstrapD 0)

/-- Invariant of a connected reader: the log is the connect-time log plus
the appended entries, the cursor stays between the connect-time length and
the current length, and the emitted frames are exactly the frames of the
already-consumed prefix of the appended entries. -/
def ReaderInv (base app : List (UpdateData α'))
    (s : List (UpdateData α') × StreamReader α') : Prop :=
  s.1 = base ++ app ∧
  base.length ≤ s.2.cursor ∧
  s.2.cursor ≤ s.1.length ∧
  s.2.emitted = (app.take (s.2.cursor - base.length)).map frameOf

/-! Shared helper lemmas. -/

theorem clamp_bounds (v lo hi : α) (h : lo ≤ hi) :
    lo ≤ clamp v lo hi ∧ clamp v lo hi ≤ hi :=
  ⟨le_max_left _ _, max_le h (min_le_left _ _)⟩

theorem routeHops_length : ∀ (k : ℕ) (cur : α × α) (draws : ℕ → α × α),
    (routeHops cur draws k).length = k
  | 0, _, _ => rfl
  | k + 1, cur, draws => by
    simp only [routeHops, List.length_cons]
    rw [routeHops_length k]

theorem routeHops_step : ∀ (k : ℕ) (cur : α × α) (draws : ℕ → α × α) (i : ℕ), i < k →
    (cur :: routeHops cur draws k).getD (i + 1) (0, 0) =
      routeHop ((cur :: routeHops cur draws k).getD i (0, 0)) (draws i)
  | 0, _, _, _, h => absurd h (Nat.not_lt_zero _)
  | k + 1, cur, draws, 0, _ => by
    simp [routeHops]
  | k + 1, cur, draws, j + 1, h => by
    have hj : j < k := Nat.lt_of_succ_lt_succ h
    have ih := routeHops_step k (routeHop cur (draws 0)) (fun i => draws (i + 1)) j hj
    simpa [routeHops] using ih

/-! Claim C2. -/

/-- C2 (amended): the severity table has lower-inclusive bands 0.80 critical,
0.60 high, 0.35 medium, else low; in particular 0.80 gives critical, 0.79
gives high (it falls in the high band) and 0.59 gives medium. -/
theorem risk_severity_threshold_table (r : ℚ) :
    ((4/5 : ℚ) ≤ r → _risk_to_severity r = "critical") ∧
    ((3/5 : ℚ) ≤ r → r < 4/5 → _risk_to_severity r = "high") ∧
    ((7/20 : ℚ) ≤ r → r < 3/5 → _risk_to_severity r = "medium") ∧
    (r < 7/20 → _risk_to_severity r = "low") ∧
    _risk_to_severity ((4/5 : ℚ)) = "critical" ∧
    _risk_to_severity ((79/100 : ℚ)) = "high" ∧
    _risk_to_severity ((59/100 : ℚ)) = "medium" := by
  refine ⟨fun h => ?_, fun h1 h2 => ?_, fun h1 h2 => ?_, fun h => ?_,
    by norm_num [_risk_to_severity], by norm_num [_risk_to_severity],
    by norm_num [_risk_to_severity]⟩
  · rw [_risk_to_severity, if_pos h]
  · rw [_risk_to_severity, if_neg (by linarith), if_pos h1]
  · rw [_risk_to_severity, if_neg (by linarith), if_neg (by linarith), if_pos h1]
  · rw [_risk_to_severity, if_neg (by linarith), if_neg (by linarith),
      if_neg (by linarith)]

/-- C2 counterexample: the claim asserts severityOf(0.79) = medium, but the
code places 0.79 in the high band since 0.79 is at least 0.60. -/
theorem risk_severity_079_is_high :
    _risk_to_severity ((79/100 : ℚ)) = "high" ∧ ("high" : String) ≠ "medium" := by
  refine ⟨by norm_num [_risk_to_severity], by decide⟩

/-! Claim C6. -/

/-- C6: stepToward never divides by zero and is total: when the remaining
distance is within one step (in particular at distance zero, a = b) it
returns the target with arrived true; otherwise the distance is strictly
positive (so the direction is well defined) and the returned point lies
exactly one step away from the start, with arrived false. -/
theorem move_towards_spec (a_lat a_lon b_lat b_lon step : ℝ) (hstep : 0 < step) :
    (dist_deg a_lat a_lon b_lat b_lon ≤ step →
      move_towards a_lat a_lon b_lat b_lon step = (b_lat, b_lon, true)) ∧
    (a_lat = b_lat → a_lon = b_lon →
      move_towards a_lat a_lon b_lat b_lon step = (b_lat, b_lon, true)) ∧
    (step < dist_deg a_lat a_lon b_lat b_lon →
      0 < dist_deg a_lat a_lon b_lat b_lon ∧
      (move_towards a_lat a_lon b_lat b_lon step).2.2 = false ∧
      dist_deg a_lat a_lon (move_towards a_lat a_lon b_lat b_lon step).1
        (move_towards a_lat a_lon b_lat b_lon step).2.1 = step) := by
  have hzero : ∀ x y : ℝ, dist_deg x y x y = 0 := by
    intro x y
    simp [dist_deg]
  refine ⟨fun h => ?_, fun h1 h2 => ?_, fun h => ?_⟩
  · rw [move_towards, if_pos h]
  · subst h1; subst h2
    rw [move_towards, if_pos (by rw [hzero]; exact hstep.le)]
  · have hDpos : 0 < dist_deg a_lat a_lon b_lat b_lon := lt_trans hstep h
    have hDne : dist_deg a_lat a_lon b_lat b_lon ≠ 0 := ne_of_gt hDpos
    have hC : ¬ dist_deg a_lat a_lon b_lat b_lon ≤ step := not_le.mpr h
    rw [move_towards, if_neg hC]
    refine ⟨hDpos, rfl, ?_⟩
    have hS : dist_deg a_lat a_lon b_lat b_lon * dist_deg a_lat a_lon b_lat b_lon =
        (b_lat - a_lat) * (b_lat - a_lat) + (b_lon - a_lon) * (b_lon - a_lon) := by
      exact Real.mul_self_sqrt
        (add_nonneg (mul_self_nonneg _) (mul_self_nonneg _))
    rw [dist_deg]
    have key :
        (a_lat + (b_lat - a_lat) / dist_deg a_lat a_lon b_lat b_lon * step - a_lat) *
          (a_lat + (b_lat - a_lat) / dist_deg a_lat a_lon b_lat b_lon * step - a_lat) +
        (a_lon + (b_lon - a_lon) / dist_deg a_lat a_lon b_lat b_lon * step - a_lon) *
          (a_lon + (b_lon - a_lon) / dist_deg a_lat a_lon b_lat b_lon * step - a_lon) =
          step * step := by
      field_simp
      nlinarith [hS]
    rw [key]
    exact Real.sqrt_mul_self hstep.le

/-- C6 witness: at a = b = (0,0) and step 1 the function returns the point
itself with arrived true. -/
theorem move_towards_spec_witness :
    (0 : ℝ) < 1 ∧ move_towards 0 0 0 0 1 = (0, 0, true) :=
  ⟨one_pos, (move_towards_spec 0 0 0 0 1 one_pos).2.1 rfl rfl⟩

/-! Claim C8. -/

/-- C8 (amended): for n at least 2, buildRoute returns exactly n waypoints;
the first waypoint is the starting point, and each later waypoint is the
previous one offset by the drawn delta (bounded by 1.2 in latitude and 1.8
in longitude when the draws are) and clamped into the operating region.
For n at most 1 the route still has 2 waypoints, 1 + max(1, n-1). -/
theorem random_route_spec (lat lon : ℚ) (n : ℕ) (draws : ℕ → ℚ × ℚ)
    (hn : 2 ≤ n)
    (hb : ∀ i, |(draws i).1| ≤ 6/5 ∧ |(draws i).2| ≤ 9/5) :
    (random_route lat lon n draws).length = n ∧
    (random_route lat lon n draws).getD 0 (0, 0) = (lat, lon) ∧
    ∀ i, i + 1 < n →
      ∃ dlat dlon : ℚ, |dlat| ≤ 6/5 ∧ |dlon| ≤ 9/5 ∧
        (random_route lat lon n draws).getD (i + 1) (0, 0) =
          (clamp (((random_route lat lon n draws).getD i (0, 0)).1 + dlat) 35 60,
           clamp (((random_route lat lon n draws).getD i (0, 0)).2 + dlon) (-10) 30) := by
  have hmax : max 1 (n - 1) = n - 1 := by omega
  refine ⟨?_, rfl, ?_⟩
  · rw [random_route, List.length_cons, routeHops_length, hmax]
    omega
  · intro i hi
    refine ⟨(draws i).1, (draws i).2, (hb i).1, (hb i).2, ?_⟩
    have hstep := routeHops_step (max 1 (n - 1)) (lat, lon) draws i (by omega)
    rw [random_route]
    rw [hstep]
    rfl

/-- C8 witness: a route of requested length 3 from (50, 0) with unit deltas
indeed has 3 waypoints. -/
theorem random_route_spec_witness :
    (random_route (50 : ℚ) 0 3 wDraws).length = 3 :=
  (random_route_spec 50 0 3 wDraws (by norm_num)
    (fun _ => ⟨by norm_num [wDraws], by norm_num [wDraws]⟩)).1

/-- C8 counterexample: for n = 1 the claim says exactly 1 waypoint, but the
loop runs max(1, n-1) = 1 time and the route has 2 waypoints. -/
theorem random_route_length_one :
    (random_route (50 : ℚ) 0 1 (fun _ => (0, 0))).length = 2 ∧ (2 : ℕ) ≠ 1 := by
  constructor
  · rfl
  · decide

/-! Helper lemmas about generate_alert. -/

omit [LinearOrderedField α] in
theorem _event_to_priority_cases (evt : EventData α) :
    _event_to_priority evt = none ∨ _event_to_priority evt = some "p1" ∨
      _event_to_priority evt = some "p2" := by
  unfold _event_to_priority
  split_ifs <;> simp

omit [LinearOrderedField α] in
theorem generate_alert_skips (st : Store α) (now : ℕ) (newId eid : String)
    (evt : EventData α)
    (h1 : st.events.getLast? = some eid) (h2 : st.eventOf eid = some evt)
    (h3 : _event_to_priority evt = none) :
    generate_alert st now newId = st := by
  simp only [generate_alert, h1, h2, h3]

omit [LinearOrderedField α] in
theorem generate_alert_deduped (st : Store α) (now : ℕ) (newId eid : String)
    (evt : EventData α) (p : String)
    (h1 : st.events.getLast? = some eid) (h2 : st.eventOf eid = some evt)
    (h3 : _event_to_priority evt = some p)
    (h4 : dedupLive st.dedup ("dedup:alert:" ++ fingerprintOf p evt) now = true) :
    generate_alert st now newId = st := by
  simp only [generate_alert, h1, h2, h3, h4, if_true]

omit [LinearOrderedField α] in
theorem generate_alert_creates (st : Store α) (now : ℕ) (newId eid : String)
    (evt : EventData α) (p : String)
    (h1 : st.events.getLast? = some eid) (h2 : st.eventOf eid = some evt)
    (h3 : _event_to_priority evt = some p)
    (h4 : dedupLive st.dedup ("dedup:alert:" ++ fingerprintOf p evt) now = false) :
    generate_alert st now newId = { st with
      dedup := fun k =>
        if k = "dedup:alert:" ++ fingerprintOf p evt then some (now + 60) else st.dedup k
      alertOf := fun k =>
        if k = newId then some (alertRecordOf p evt now newId) else st.alertOf k
      alerts := keepLast 300 (st.alerts ++ [newId])
      updates := _push_update st.updates (.alertD (alertRecordOf p evt now newId)) } := by
  simp only [generate_alert, h1, h2, h3, h4, Bool.false_eq_true, if_false]

/-! Claim C10. -/

/-- C10: bootstrap_assets is a guarded no-op when assets already exist: with
a non-empty assets index it returns the store unchanged, creating no asset,
writing no key and appending nothing to the update log. -/
theorem bootstrap_assets_noop (st : Store ℚ) (n : ℕ) (b : BootRandom ℚ)
    (h : st.assets ≠ []) :
    bootstrap_assets st n b = st := by
  unfold bootstrap_assets
  rw [if_pos (List.length_pos.mpr h)]

/-- C10 witness: on a store already holding one asset id, a bootstrap call
for 60 assets changes nothing. -/
theorem bootstrap_assets_noop_witness : bootstrap_assets stW10 60 bW = stW10 :=
  bootstrap_assets_noop stW10 60 bW (by decide)

/-! Claim C4. -/

/-- C4: the correlation step creates an alert only when the severity of the
latest event maps to a priority: critical maps to p1 and high to p2, while
medium or low maps to no priority and the tick returns the store unchanged
without error. -/
theorem alert_priority_policy (st : Store ℚ) (now : ℕ) (newId eid : String)
    (evt : EventData ℚ)
    (h1 : st.events.getLast? = some eid) (h2 : st.eventOf eid = some evt) :
    (evt.severity = "critical" → _event_to_priority evt = some "p1") ∧
    (evt.severity = "high" → _event_to_priority evt = some "p2") ∧
    (evt.severity = "medium" ∨ evt.severity = "low" → _event_to_priority evt = none) ∧
    (_event_to_priority evt = none → generate_alert st now newId = st) ∧
    (generate_alert st now newId ≠ st →
      _event_to_priority evt = some "p1" ∨ _event_to_priority evt = some "p2") := by
  have hnoop : _event_to_priority evt = none → generate_alert st now newId = st :=
    fun h => generate_alert_skips st now newId eid evt h1 h2 h
  refine ⟨fun h => ?_, fun h => ?_, fun h => ?_, hnoop, fun hne => ?_⟩
  · simp [_event_to_priority, h]
  · simp [_event_to_priority, h]
  · rcases h with h | h <;> simp [_event_to_priority, h]
  · rcases _event_to_priority_cases evt with h0 | hp | hp
    · exact absurd (hnoop h0) hne
    · exact Or.inl hp
    · exact Or.inr hp

/-- C4 witness: on a store whose latest event has severity medium, the
correlation step maps it to no priority and leaves the store unchanged. -/
theorem alert_priority_policy_witness :
    (evtW4.severity = "critical" → _event_to_priority evtW4 = some "p1") ∧
    (evtW4.severity = "high" → _event_to_priority evtW4 = some "p2") ∧
    (evtW4.severity = "medium" ∨ evtW4.severity = "low" →
      _event_to_priority evtW4 = none) ∧
    (_event_to_priority evtW4 = none → generate_alert stW4 0 "alr_1" = stW4) ∧
    (generate_alert stW4 0 "alr_1" ≠ stW4 →
      _event_to_priority evtW4 = some "p1" ∨ _event_to_priority evtW4 = some "p2") :=
  alert_priority_policy stW4 0 "alr_1" "evt_1" evtW4 rfl rfl

/-! Claim C5. -/

/-- C5: within the 60-second dedup window a repeated fingerprint yields one
alert only: the first tick persists the alert and sets the marker, the
second tick finds the marker live and returns the store unchanged; once the
window has elapsed (the third time point) the same fingerprint produces a
second alert, appended to the alerts index. -/
theorem alert_dedup_window (st : Store ℚ) (t1 t2 t3 : ℕ) (id1 id2 id3 eid : String)
    (evt : EventData ℚ) (p : String)
    (h1 : st.events.getLast? = some eid) (h2 : st.eventOf eid = some evt)
    (h3 : _event_to_priority evt = some p)
    (h4 : dedupLive st.dedup ("dedup:alert:" ++ fingerprintOf p evt) t1 = false)
    (h5 : t2 < t1 + 60) (h6 : t1 + 60 ≤ t3) :
    (generate_alert st t1 id1).alertOf id1 = some (alertRecordOf p evt t1 id1) ∧
    (generate_alert st t1 id1).alerts = keepLast 300 (st.alerts ++ [id1]) ∧
    generate_alert (generate_alert st t1 id1) t2 id2 = generate_alert st t1 id1 ∧
    (generate_alert (generate_alert st t1 id1) t3 id3).alerts =
      keepLast 300 ((generate_alert st t1 id1).alerts ++ [id3]) := by
  have hfirst := generate_alert_creates st t1 id1 eid evt p h1 h2 h3 h4
  have hev : (generate_alert st t1 id1).events = st.events := by rw [hfirst]
  have hevOf : (generate_alert st t1 id1).eventOf = st.eventOf := by rw [hfirst]
  have hdk : (generate_alert st t1 id1).dedup ("dedup:alert:" ++ fingerprintOf p evt) =
      some (t1 + 60) := by
    rw [hfirst]
    simp
  refine ⟨?_, ?_, ?_, ?_⟩
  · rw [hfirst]
    simp
  · rw [hfirst]
  · refine generate_alert_deduped _ t2 id2 eid evt p ?_ ?_ h3 ?_
    · rw [hev, h1]
    · rw [hevOf, h2]
    · rw [dedupLive, hdk]
      simpa using h5
  · rw [generate_alert_creates (generate_alert st t1 id1) t3 id3 eid evt p
      (by rw [hev, h1]) (by rw [hevOf, h2]) h3 ?_]
    rw [dedupLive, hdk]
    simpa using h6

/-- C5 witness: a concrete store with a critical latest event at times 0, 30
and 60 shows one alert in the window and a second one after it. -/
theorem alert_dedup_window_witness :
    (generate_alert stW5 0 "alr_1").alertOf "alr_1" =
      some (alertRecordOf "p1" evtW5 0 "alr_1") ∧
    (generate_alert stW5 0 "alr_1").alerts = keepLast 300 (stW5.alerts ++ ["alr_1"]) ∧
    generate_alert (generate_alert stW5 0 "alr_1") 30 "alr_2" =
      generate_alert stW5 0 "alr_1" ∧
    (generate_alert (generate_alert stW5 0 "alr_1") 60 "alr_3").alerts =
      keepLast 300 ((generate_alert stW5 0 "alr_1").alerts ++ ["alr_3"]) :=
  alert_dedup_window stW5 0 30 60 "alr_1" "alr_2" "alr_3" "evt_2" evtW5 "p1"
    rfl rfl rfl rfl (by decide) (by decide)

/-! Helper lemmas about the admin controller. -/

theorem _acquire_lock_taken (l : Option ℕ) (now : ℕ)
    (h : (_acquire_lock l now).1 = true) :
    (_acquire_lock l now).2 = some (now + admin_lock_sec) := by
  unfold _acquire_lock at h ⊢
  cases l with
  | none => rfl
  | some e =>
    by_cases he : now < e
    · simp [he] at h
    · simp [he]

omit [LinearOrderedField α] in
theorem set_scenario_busy_case (st : AdminState α) (now : ℕ) (name : ScenarioName)
    (actor : String) (h : (_acquire_lock st.lock now).1 = false) :
    set_scenario st now name actor = (.busy, st) := by
  unfold set_scenario
  simp [h]

omit [LinearOrderedField α] in
theorem set_scenario_cooldown_case (st : AdminState α) (now : ℕ) (name : ScenarioName)
    (actor : String) (h1 : (_acquire_lock st.lock now).1 = true)
    (h2 : now < st.cooldownUntil) :
    set_scenario st now name actor =
      (.cooldownActive (st.cooldownUntil - now),
       { st with lock := (_acquire_lock st.lock now).2 }) := by
  unfold set_scenario
  have hne : ¬ ((_acquire_lock st.lock now).1 = false) := by simp [h1]
  have hrem : 0 < _cooldown_remaining st.cooldownUntil now := by
    unfold _cooldown_remaining
    omega
  simp [hne, hrem, _cooldown_remaining]
  omega

omit [LinearOrderedField α] in
theorem set_scenario_ok_case (st : AdminState α) (now : ℕ) (name : ScenarioName)
    (actor : String) (h1 : (_acquire_lock st.lock now).1 = true)
    (h2 : st.cooldownUntil ≤ now) :
    set_scenario st now name actor =
      (.ok (scenarioStr name) (SCENARIO_PRESETS name) admin_cooldown_sec,
       { st with
          lock := (_acquire_lock st.lock now).2
          scenario := some (scenarioStr name)
          rateEvent := some (SCENARIO_PRESETS name).1
          rateAsset := some (SCENARIO_PRESETS name).2.1
          rateAlert := some (SCENARIO_PRESETS name).2.2
          cooldownUntil := now + admin_cooldown_sec
          updates := _push_update st.updates
            (.adminD "scenario_changed" actor now admin_cooldown_sec) }) := by
  unfold set_scenario
  have hne : ¬ ((_acquire_lock st.lock now).1 = false) := by simp [h1]
  have hrem : ¬ (0 < _cooldown_remaining st.cooldownUntil now) := by
    unfold _cooldown_remaining
    omega
  simp [hne, hrem]

/-! Claim C3. -/

/-- C3 (amended): after a successful set_scenario at t1, a second call made
while the 10-second admin lock of the first call is still live is rejected
as busy with all state unchanged; a second call made after the lock expired
but before the cooldown deadline is rejected with the cooldown-active
outcome carrying the remaining seconds, leaving the scenario and the three
rate overrides as the first call set them; a call after cooldown expiry
succeeds. -/
theorem set_scenario_cooldown_discipline (st : AdminState ℚ) (t1 t2 : ℕ)
    (n1 n2 : ScenarioName) (a1 a2 : String)
    (hlock : (_acquire_lock st.lock t1).1 = true)
    (hcool : st.cooldownUntil ≤ t1) :
    (set_scenario st t1 n1 a1).1 =
      .ok (scenarioStr n1) (SCENARIO_PRESETS n1) admin_cooldown_sec ∧
    (set_scenario st t1 n1 a1).2.scenario = some (scenarioStr n1) ∧
    (set_scenario st t1 n1 a1).2.rateEvent = some (SCENARIO_PRESETS n1).1 ∧
    (set_scenario st t1 n1 a1).2.rateAsset = some (SCENARIO_PRESETS n1).2.1 ∧
    (set_scenario st t1 n1 a1).2.rateAlert = some (SCENARIO_PRESETS n1).2.2 ∧
    (t2 < t1 + admin_lock_sec →
      set_scenario (set_scenario st t1 n1 a1).2 t2 n2 a2 =
        (.busy, (set_scenario st t1 n1 a1).2)) ∧
    (t1 + admin_lock_sec ≤ t2 → t2 < t1 + admin_cooldown_sec →
      (set_scenario (set_scenario st t1 n1 a1).2 t2 n2 a2).1 =
        .cooldownActive (t1 + admin_cooldown_sec - t2) ∧
      (set_scenario (set_scenario st t1 n1 a1).2 t2 n2 a2).2.scenario =
        some (scenarioStr n1) ∧
      (set_scenario (set_scenario st t1 n1 a1).2 t2 n2 a2).2.rateEvent =
        some (SCENARIO_PRESETS n1).1 ∧
      (set_scenario (set_scenario st t1 n1 a1).2 t2 n2 a2).2.rateAsset =
        some (SCENARIO_PRESETS n1).2.1 ∧
      (set_scenario (set_scenario st t1 n1 a1).2 t2 n2 a2).2.rateAlert =
        some (SCENARIO_PRESETS n1).2.2) ∧
    (t1 + admin_cooldown_sec ≤ t2 →
      (set_scenario (set_scenario st t1 n1 a1).2 t2 n2 a2).1 =
        .ok (scenarioStr n2) (SCENARIO_PRESETS n2) admin_cooldown_sec) := by
  have hfirst := set_scenario_ok_case st t1 n1 a1 hlock hcool
  have hl2 : (set_scenario st t1 n1 a1).2.lock = some (t1 + admin_lock_sec) := by
    rw [hfirst]
    exact _acquire_lock_taken st.lock t1 hlock
  have hcd2 : (set_scenario st t1 n1 a1).2.cooldownUntil = t1 + admin_cooldown_sec := by
    rw [hfirst]
  have hsc2 : (set_scenario st t1 n1 a1).2.scenario = some (scenarioStr n1) := by
    rw [hfirst]
  have hre2 : (set_scenario st t1 n1 a1).2.rateEvent = some (SCENARIO_PRESETS n1).1 := by
    rw [hfirst]
  have hra2 : (set_scenario st t1 n1 a1).2.rateAsset = some (SCENARIO_PRESETS n1).2.1 := by
    rw [hfirst]
  have hrl2 : (set_scenario st t1 n1 a1).2.rateAlert = some (SCENARIO_PRESETS n1).2.2 := by
    rw [hfirst]
  refine ⟨by rw [hfirst], hsc2, hre2, hra2, hrl2, fun hb => ?_, fun hd1 hd2 => ?_,
    fun he => ?_⟩
  · apply set_scenario_busy_case
    rw [hl2]
    unfold _acquire_lock
    simp [hb]
  · have hacq : (_acquire_lock (set_scenario st t1 n1 a1).2.lock t2).1 = true := by
      rw [hl2]
      unfold _acquire_lock
      simp [Nat.not_lt.mpr hd1]
    have hsecond := set_scenario_cooldown_case (set_scenario st t1 n1 a1).2 t2 n2 a2
      hacq (by omega)
    rw [hsecond]
    have hrw : (set_scenario st t1 n1 a1).2.cooldownUntil - t2 =
        t1 + admin_cooldown_sec - t2 := by rw [hcd2]
    exact ⟨by rw [hrw], hsc2, hre2, hra2, hrl2⟩
  · have hacq : (_acquire_lock (set_scenario st t1 n1 a1).2.lock t2).1 = true := by
      rw [hl2]
      unfold _acquire_lock
      have : ¬ t2 < t1 + admin_lock_sec := by
        unfold admin_lock_sec admin_cooldown_sec at *
        omega
      simp [this]
    have hsecond := set_scenario_ok_case (set_scenario st t1 n1 a1).2 t2 n2 a2
      hacq (by omega)
    rw [hsecond]

/-- C3 witness: from a fresh admin state at time 0 the first call succeeds
and applies the stress preset. -/
theorem set_scenario_cooldown_discipline_witness :
    (set_scenario stA0 0 ScenarioName.stress "a1").1 =
      .ok (scenarioStr ScenarioName.stress) (SCENARIO_PRESETS ScenarioName.stress)
        admin_cooldown_sec :=
  (set_scenario_cooldown_discipline stA0 0 1 ScenarioName.stress ScenarioName.normal
    "a1" "a2" (by decide) (by decide)).1

/-- C3 counterexample: a second set_scenario call made one second after a
successful first call from a fresh state is rejected as busy by the admin
lock, not with the cooldown-active outcome the claim describes. -/
theorem set_scenario_immediate_busy :
    (set_scenario (set_scenario stA0 0 ScenarioName.stress "a1").2 1
        ScenarioName.normal "a1").1 = AdminResult.busy ∧
    (∀ rem : ℕ, AdminResult.busy ≠ AdminResult.cooldownActive rem) := by
  constructor
  · decide
  · simp

/-! Claim C9. -/

theorem generate_event_eventOf (st : Store α) (now : ℕ) (rnd : EventRandom α)
    (asset : SimAsset α)
    (hne : ¬ st.assets.length = 0)
    (hfound : st.assetOf (st.assets.getD (rnd.pickIdx % st.assets.length) "") = some asset) :
    (generate_event st now rnd).eventOf rnd.newId =
      some (eventRecordOf asset (st.assets.getD (rnd.pickIdx % st.assets.length) "")
        now rnd) := by
  unfold generate_event
  rw [if_neg hne]
  simp only [hfound]
  simp

theorem eventRecordOf_lat (asset : SimAsset α) (asset_id : String) (now : ℕ)
    (rnd : EventRandom α) :
    (eventRecordOf asset asset_id now rnd).lat = asset.lat + rnd.dlat := rfl

theorem eventRecordOf_lon (asset : SimAsset α) (asset_id : String) (now : ℕ)
    (rnd : EventRandom α) :
    (eventRecordOf asset asset_id now rnd).lon = asset.lon + rnd.dlon := rfl

/-- C9: an event is positioned at the source asset position plus one
uniform jitter draw per axis, with no clamp: the created event satisfies the
exact offset equations, an in-region asset with draws of magnitude at most
0.25 yields a position inside the region inflated by 0.25 on each side, and
a concrete boundary asset with the full positive draw produces an event
strictly outside the operating region. -/
theorem generate_event_offset (st : Store ℚ) (now : ℕ) (rnd : EventRandom ℚ)
    (asset : SimAsset ℚ)
    (hne : ¬ st.assets.length = 0)
    (hfound : st.assetOf (st.assets.getD (rnd.pickIdx % st.assets.length) "") = some asset) :
    (∃ evt : EventData ℚ, (generate_event st now rnd).eventOf rnd.newId = some evt ∧
      evt.lat = asset.lat + rnd.dlat ∧ evt.lon = asset.lon + rnd.dlon) ∧
    (|rnd.dlat| ≤ 1/4 → 35 ≤ asset.lat → asset.lat ≤ 60 →
      35 - 1/4 ≤ asset.lat + rnd.dlat ∧ asset.lat + rnd.dlat ≤ 60 + 1/4) ∧
    (|rnd.dlon| ≤ 1/4 → -10 ≤ asset.lon → asset.lon ≤ 30 →
      -10 - 1/4 ≤ asset.lon + rnd.dlon ∧ asset.lon + rnd.dlon ≤ 30 + 1/4) ∧
    (∃ (st2 : Store ℚ) (now2 : ℕ) (rnd2 : EventRandom ℚ) (asset2 : SimAsset ℚ)
        (evt2 : EventData ℚ),
      st2.assetOf (st2.assets.getD (rnd2.pickIdx % st2.assets.length) "") = some asset2 ∧
      35 ≤ asset2.lat ∧ asset2.lat ≤ 60 ∧ |rnd2.dlat| ≤ 1/4 ∧
      (generate_event st2 now2 rnd2).eventOf rnd2.newId = some evt2 ∧
      60 < evt2.lat) := by
  refine ⟨⟨_, generate_event_eventOf st now rnd asset hne hfound,
      eventRecordOf_lat asset _ now rnd, eventRecordOf_lon asset _ now rnd⟩,
    fun h1 h2 h3 => ?_, fun h1 h2 h3 => ?_, ?_⟩
  · have hab := abs_le.mp h1
    constructor <;> linarith [hab.1, hab.2]
  · have hab := abs_le.mp h1
    constructor <;> linarith [hab.1, hab.2]
  · have he := generate_event_eventOf stW9 0 rndW9 assetW9 (by decide) rfl
    refine ⟨stW9, 0, rndW9, assetW9, _, rfl, by norm_num [assetW9],
      by norm_num [assetW9], by norm_num [rndW9, abs_le], he, ?_⟩
    rw [eventRecordOf_lat]
    norm_num [assetW9, rndW9]

/-- C9 witness: the boundary asset with the full positive latitude draw
yields an event offset by exactly that draw. -/
theorem generate_event_offset_witness :
    ∃ evt : EventData ℚ, (generate_event stW9 0 rndW9).eventOf rndW9.newId = some evt ∧
      evt.lat = assetW9.lat + rndW9.dlat ∧ evt.lon = assetW9.lon + rndW9.dlon :=
  (generate_event_offset stW9 0 rndW9 assetW9 (by decide) rfl).1

/-! Helper lemmas about the stream reader. -/

theorem _push_update_no_trim (log : List (UpdateData α')) (e : UpdateData α')
    (h : log.length + 1 ≤ 500) : _push_update log e = log ++ [e] := by
  unfold _push_update keepLast
  have hz : (log ++ [e]).length - 500 = 0 := by
    rw [List.length_append]
    simp
    omega
  rw [hz, List.drop_zero]

theorem runStep_poll_stuck (s : List (UpdateData α') × StreamReader α')
    (h : ¬ s.2.cursor < s.1.length) : runStep s .poll = s := by
  simp only [runStep]
  rw [if_neg h]

theorem poll_flushes (base app : List (UpdateData α'))
    (s : List (UpdateData α') × StreamReader α') (hinv : ReaderInv base app s) :
    runStep s .poll = (s.1, ⟨s.1.length, app.map frameOf⟩) := by
  obtain ⟨log, c, em⟩ := s
  obtain ⟨h1, h2, h3, h4⟩ := hinv
  simp only at h1 h2 h3 h4
  have hlen : log.length = base.length + app.length := by
    rw [h1, List.length_append]
  unfold runStep
  dsimp only
  by_cases hlt : c < log.length
  · rw [if_pos hlt]
    have hcur : c = base.length + (c - base.length) := by omega
    have hdrop : log.drop c = app.drop (c - base.length) := by
      rw [h1]
      conv_lhs => rw [hcur]
      exact List.drop_append _
    rw [h4, hdrop, ← List.map_append, List.take_append_drop]
  · rw [if_neg hlt]
    have hc : c = log.length := by omega
    have htake : app.take (c - base.length) = app := List.take_of_length_le (by omega)
    rw [h4, htake, hc]

theorem runSteps_inv : ∀ (steps : List (StreamStep α')) (base app : List (UpdateData α'))
    (s : List (UpdateData α') × StreamReader α'),
    ReaderInv base app s → s.1.length + (appendsOf steps).length ≤ 500 →
    ReaderInv base (app ++ appendsOf steps) (steps.foldl runStep s)
  | [], base, app, s, hinv, _ => by
    simpa [appendsOf] using hinv
  | .append d :: rest, base, app, s, hinv, hlen => by
    obtain ⟨h1, h2, h3, h4⟩ := hinv
    have hrest : (appendsOf (.append d :: rest) : List (UpdateData α')) =
        d :: appendsOf rest := by
      simp [appendsOf]
    rw [hrest] at hlen
    have hlen1 : s.1.length + 1 ≤ 500 := by
      simp at hlen
      omega
    have hstep : runStep s (.append d) = (s.1 ++ [d], s.2) := by
      simp only [runStep]
      rw [_push_update_no_trim _ _ hlen1]
    have hinv2 : ReaderInv base (app ++ [d]) (s.1 ++ [d], s.2) := by
      refine ⟨by rw [h1, List.append_assoc], h2, ?_, ?_⟩
      · rw [List.length_append]
        simp
        omega
      · rw [h4]
        have hle : s.2.cursor - base.length ≤ app.length := by
          have : s.1.length = base.length + app.length := by
            rw [h1, List.length_append]
          omega
        rw [List.take_append_of_le_length hle]
    have ih := runSteps_inv rest base (app ++ [d]) (s.1 ++ [d], s.2) hinv2
      (by
        rw [List.length_append]
        simp at hlen ⊢
        omega)
    rw [List.foldl_cons, hstep, hrest]
    have hassoc : app ++ d :: appendsOf rest = (app ++ [d]) ++ appendsOf rest := by
      simp
    rw [hassoc]
    exact ih
  | .poll :: rest, base, app, s, hinv, hlen => by
    have hpoll := poll_flushes base app s hinv
    have hinv2 : ReaderInv base app (runStep s .poll) := by
      rw [hpoll]
      obtain ⟨h1, h2, h3, h4⟩ := hinv
      have hlen2 : s.1.length = base.length + app.length := by
        rw [h1, List.length_append]
      unfold ReaderInv
      dsimp only
      refine ⟨h1, by omega, le_refl _, ?_⟩
      have htk : app.take (s.1.length - base.length) = app :=
        List.take_of_length_le (by omega)
      rw [htk]
    have ih := runSteps_inv rest base app (runStep s .poll) hinv2
      (by
        rw [hpoll]
        simpa [appendsOf] using hlen)
    rw [List.foldl_cons]
    have hrest : (appendsOf (.poll :: rest) : List (UpdateData α')) = appendsOf rest := by
      simp [appendsOf]
    rw [hrest]
    exact ih

/-! Claim C7. -/

/-- C7 (amended): a reader connecting over a log of N entries captures N as
its cursor and, provided the log never exceeds the 500-entry trim capacity
during the connection, after a final poll it has emitted exactly the frames
of the entries appended after connection, in append order, keyed by entry
type, and none of the N historical entries.  At capacity the trim shifts
indices and appended entries can be missed. -/
theorem stream_cursor_no_replay (base : List (UpdateData ℚ))
    (steps : List (StreamStep ℚ))
    (h : base.length + (appendsOf steps).length ≤ 500) :
    (connectReader base).cursor = base.length ∧
    (runSteps base (steps ++ [StreamStep.poll])).2.emitted =
      (appendsOf steps).map frameOf := by
  refine ⟨rfl, ?_⟩
  have hinv0 : ReaderInv base [] (base, connectReader base) :=
    ⟨by simp, le_refl _, le_refl _, by simp [connectReader]⟩
  have hinv := runSteps_inv steps base [] (base, connectReader base) hinv0 (by simpa using h)
  rw [List.nil_append] at hinv
  rw [runSteps, List.foldl_append, List.foldl_cons, List.foldl_nil]
  rw [poll_flushes base (appendsOf steps) _ hinv]

/-- C7 witness: over an empty log, one appended entry followed by a poll is
emitted as exactly one frame. -/
theorem stream_cursor_no_replay_witness :
    (connectReader ([] : List (UpdateData ℚ))).cursor =
      ([] : List (UpdateData ℚ)).length ∧
    (runSteps ([] : List (UpdateData ℚ))
        ([StreamStep.append (UpdateData.bootstrapD 5)] ++ [StreamStep.poll])).2.emitted =
      (appendsOf [StreamStep.append (UpdateData.bootstrapD 5)]).map frameOf :=
  stream_cursor_no_replay [] [StreamStep.append (UpdateData.bootstrapD 5)] (by decide)

/-- C7 counterexample: with the log already at the 500-entry capacity, one
append (which trims the oldest entry away) followed by a poll emits nothing,
although one entry was appended after connection. -/
theorem stream_trim_misses_appends :
    (appendsOf [StreamStep.append (UpdateData.bootstrapD 1), StreamStep.poll]).map
        (frameOf : UpdateData ℚ → String × UpdateData ℚ) ≠ [] ∧
    (runSteps fullLog
        [StreamStep.append (UpdateData.bootstrapD 1), StreamStep.poll]).2.emitted = [] := by
  constructor
  · simp [appendsOf]
  · have hfl : fullLog.length = 500 := by
      rw [fullLog]
      exact List.length_replicate _ _
    have hplen : (_push_update fullLog (UpdateData.bootstrapD 1)).length = 500 := by
      unfold _push_update keepLast
      rw [List.length_drop, List.length_append, hfl]
      simp
    rw [runSteps, List.foldl_cons, List.foldl_cons, List.foldl_nil]
    show (runStep (runStep (fullLog, connectReader fullLog)
      (.append (UpdateData.bootstrapD 1))) .poll).2.emitted = []
    have hstep1 : runStep (fullLog, connectReader fullLog)
        (.append (UpdateData.bootstrapD 1)) =
        (_push_update fullLog (UpdateData.bootstrapD 1), connectReader fullLog) := rfl
    rw [hstep1]
    have hcur : (connectReader fullLog).cursor = 500 := by
      simp only [connectReader]
      exact hfl
    have hstuck : ¬ ((_push_update fullLog (UpdateData.bootstrapD 1),
        connectReader fullLog) : List (UpdateData ℚ) × StreamReader ℚ).2.cursor <
        (_push_update fullLog (UpdateData.bootstrapD 1),
          connectReader fullLog).1.length := by
      dsimp only
      rw [hcur, hplen]
      omega
    rw [runStep_poll_stuck _ hstuck]
    rfl

/-! Helper lemmas about asset motion. -/

theorem updateAsset_inRegion (a : SimAsset ℝ) (rnd : TickRandom ℝ) (now : ℕ) :
    inRegion (updateAsset a rnd now) := by
  unfold updateAsset inRegion
  dsimp only
  exact ⟨(clamp_bounds _ 35 60 (by norm_num)).1, (clamp_bounds _ 35 60 (by norm_num)).2,
    (clamp_bounds _ (-10) 30 (by norm_num)).1, (clamp_bounds _ (-10) 30 (by norm_num)).2⟩

theorem foldl_assetsInRegion {β : Type} (f : Store ℝ → β → Store ℝ)
    (hf : ∀ s x, assetsInRegion s → assetsInRegion (f s x)) :
    ∀ (l : List β) (s : Store ℝ), assetsInRegion s → assetsInRegion (l.foldl f s)
  | [], _, h => h
  | x :: xs, s, h => foldl_assetsInRegion f hf xs (f s x) (hf s x h)

theorem update_assets_preserves (t : TickInput) (s : Store ℝ)
    (hs : assetsInRegion s) : assetsInRegion (update_assets s t) := by
  unfold update_assets
  split
  · exact hs
  · refine foldl_assetsInRegion _ (fun s2 aid h2 => ?_) s.assets s hs
    dsimp only
    by_cases hsel : t.sel aid
    · rw [if_pos hsel]
      cases hopt : s2.assetOf aid with
      | none => exact h2
      | some a =>
        intro aid2 a2 hfind
        dsimp only at hfind
        by_cases heq : aid2 = aid
        · rw [if_pos heq] at hfind
          cases hfind
          exact updateAsset_inRegion a (t.rnd aid) t.now
        · rw [if_neg heq] at hfind
          exact h2 aid2 a2 hfind
    · rw [if_neg hsel]
      exact h2

theorem bootstrap_assets_inRegion (st : Store ℝ) (n : ℕ) (b : BootRandom ℝ)
    (hempty : ∀ aid, st.assetOf aid = none)
    (hlat : ∀ i, 35 ≤ b.lat i ∧ b.lat i ≤ 60)
    (hlon : ∀ i, -10 ≤ b.lon i ∧ b.lon i ≤ 30) :
    assetsInRegion (bootstrap_assets st n b) := by
  have hst : assetsInRegion st := by
    intro aid a h
    rw [hempty aid] at h
    exact Option.noConfusion h
  unfold bootstrap_assets
  split
  · exact hst
  · intro aid a hfind
    dsimp only at hfind
    refine foldl_assetsInRegion _ (fun s2 i h2 => ?_) (List.range n) st hst aid a hfind
    intro aid2 a2 hfind2
    dsimp only at hfind2
    by_cases heq : aid2 = b.id i
    · rw [if_pos heq] at hfind2
      cases hfind2
      exact ⟨(hlat i).1, (hlat i).2, (hlon i).1, (hlon i).2⟩
    · rw [if_neg heq] at hfind2
      exact h2 aid2 a2 hfind2

/-! Claim C1. -/

/-- C1: starting from a store with no asset blobs, after bootstrap with its
uniform position draws taken inside the region and after any number of
asset-motion ticks, every asset blob has latitude in [35,60] and longitude
in [-10,30]: each tick applies the movement step and the GPS jitter and
then clamps both coordinates before persisting. -/
theorem asset_position_invariant (st : Store ℝ) (n : ℕ) (b : BootRandom ℝ)
    (ticks : List TickInput)
    (hempty : ∀ aid, st.assetOf aid = none)
    (hlat : ∀ i, 35 ≤ b.lat i ∧ b.lat i ≤ 60)
    (hlon : ∀ i, -10 ≤ b.lon i ∧ b.lon i ≤ 30) :
    ∀ aid a, (ticks.foldl update_assets (bootstrap_assets st n b)).assetOf aid = some a →
      35 ≤ a.lat ∧ a.lat ≤ 60 ∧ -10 ≤ a.lon ∧ a.lon ≤ 30 :=
  foldl_assetsInRegion update_assets (fun s t h => update_assets_preserves t s h) ticks
    (bootstrap_assets st n b) (bootstrap_assets_inRegion st n b hempty hlat hlon)

/-- C1 witness: an empty store bootstrapped at (40, 0) with zero ticks has
all blobs inside the region. -/
theorem asset_position_invariant_witness :
    (∀ aid, stR0.assetOf aid = none) ∧
    (∀ aid a, (([] : List TickInput).foldl update_assets
        (bootstrap_assets stR0 3 bR)).assetOf aid = some a →
      35 ≤ a.lat ∧ a.lat ≤ 60 ∧ -10 ≤ a.lon ∧ a.lon ≤ 30) :=
  ⟨fun _ => rfl,
   asset_position_invariant stR0 3 bR [] (fun _ => rfl)
     (fun _ => ⟨by norm_num [bR], by norm_num [bR]⟩)
     (fun _ => ⟨by norm_num [bR], by norm_num [bR]⟩)⟩

end FDF
